import Mathlib

/-!
Shallow embedding of the orchestration core of
`src/Fabric/Infrastructure Orchestration Platform.py`
(`InfrastructureOrchestrator`): task execution with per-target retries
(`execute_task_on_servers`), variable substitution
(`substitute_variables`), rolling restart in batches (`rolling_restart`),
group health checks (`check_group_health`) and disaster-recovery failover
(`disaster_recovery`).

Remote behaviour (the Fabric `Connection` collaborator) is abstracted as
an environment: per server, an optional connection-establishment failure
and, per attempt, either a completed run (return code, stdout, stderr) or
an exception raised during the run.  Python exceptions are modelled with
`Except`/`Option`; Python float division is modelled with exact `ℚ`
arithmetic.
-/

namespace Orch

/-- Outcome of one `c.run(command, warn=True, pty=True)` call: either the
command completed remotely (any return code) or the call raised. -/
inductive ExecResult
  | ok (returnCode : Int) (stdout stderr : String)
  | exn (msg : String)
  deriving DecidableEq, Repr

/-- Abstraction of one server's remote behaviour during
`execute_on_server`: `connectError = some msg` means `Connection(server)`
itself raises; otherwise `execAttempt k` is what `c.run` does on the
0-indexed attempt `k`. -/
structure RemoteEnv where
  connectError : Option String
  execAttempt : Nat → ExecResult

/-- The `Task` dataclass (lines 17-23 of the source).  `retries` is a
`Nat`, per the dataclass default `0` and the spec's `maxRetries ≥ 0`. -/
structure Task where
  name : String
  command : String
  whenCond : Option String := none
  retries : Nat := 0
  delay : Nat := 0

/-- The `status` strings a result dict of `execute_on_server` can carry:
`'success' | 'failed' | 'error' | 'connection_error'`. -/
inductive TaskStatus
  | success
  | failed
  | error
  | connectionError
  deriving DecidableEq, Repr

/-- The result dict produced by `execute_on_server` for one server; absent
dict keys are `none`. -/
structure TaskOutcome where
  server : String
  status : TaskStatus
  stdout : Option String := none
  stderr : Option String := none
  returnCode : Option Int := none
  error : Option String := none
  attempts : Option Nat := none
  deriving DecidableEq, Repr

/-- Scanner for Python `str.replace` on character lists: while `skip > 0`
the current character belongs to an occurrence of the pattern already
replaced and is consumed silently; at `skip = 0`, a pattern occurrence at
the current position emits the replacement and schedules the occurrence's
remaining `pat.length - 1` characters to be skipped, anything else is
copied through.  Structural on the scanned list, so it computes in the
kernel. -/
def replaceAllAux (pat rep : List Char) : Nat → List Char → List Char
  | _, [] => []
  | skip + 1, _ :: rest => replaceAllAux pat rep skip rest
  | 0, c :: rest =>
    if pat.isPrefixOf (c :: rest) && !pat.isEmpty then
      rep ++ replaceAllAux pat rep (pat.length - 1) rest
    else
      c :: replaceAllAux pat rep 0 rest

/-- Python `str.replace`: replace every non-overlapping occurrence of
`pat`, scanning left to right.  (The empty-pattern case, where Python
would interleave `rep` everywhere, never arises here: the patterns built
by `substitute_variables` always contain the braces.) -/
def replaceAll (pat rep s : List Char) : List Char :=
  replaceAllAux pat rep 0 s

/-- Python `str.replace` lifted to `String`. -/
def pyReplace (s pat rep : String) : String :=
  ⟨replaceAll pat.data rep.data s.data⟩

/-- `substitute_variables` (lines 152-156): fold over the bindings in
insertion order, each replacing every occurrence of `{name}` in the
command accumulated so far. -/
def substitute_variables (command : String) (bindings : List (String × String)) : String :=
  bindings.foldl (fun cmd kv => pyReplace cmd ("\x7b" ++ kv.1 ++ "\x7d") kv.2) command

/-- The retry loop of `execute_on_server` (lines 91-121):
`remaining` is the number of retries still allowed (`task.retries -
attempt` in the source; the branch test `attempt < task.retries` is
`remaining > 0`), `k` the 0-indexed attempt about to run. -/
def runAttempts (env : RemoteEnv) (server : String) : Nat → Nat → TaskOutcome
  | 0, k =>
    match env.execAttempt k with
    | .ok rc out err =>
      if rc = 0 then
        { server := server, status := .success, stdout := some out, attempts := some (k + 1) }
      else
        { server := server, status := .failed, stderr := some err,
          returnCode := some rc, attempts := some (k + 1) }
    | .exn msg =>
      { server := server, status := .error, error := some msg, attempts := some (k + 1) }
  | r + 1, k =>
    match env.execAttempt k with
    | .ok rc out _ =>
      if rc = 0 then
        { server := server, status := .success, stdout := some out, attempts := some (k + 1) }
      else
        runAttempts env server r (k + 1)
    | .exn _ => runAttempts env server r (k + 1)

/-- `execute_on_server` (lines 86-128): a failure to establish the
connection is caught by the outer `except` and reported as
`connection_error`; otherwise the command is resolved and the retry loop
runs with `task.retries` retries available, starting at attempt 0. -/
def execute_on_server (env : RemoteEnv) (task : Task) (server : String)
    (bindings : List (String × String)) : TaskOutcome :=
  match env.connectError with
  | some msg => { server := server, status := .connectionError, error := some msg }
  | none =>
    let _command := substitute_variables task.command bindings
    runAttempts env server task.retries 0

/-- `execute_task_on_servers` (lines 86-150): one `execute_on_server`
call per listed server, submitted to a thread pool.  The per-server work
is given here in input order; completion order is captured separately (a
fleet result is any permutation of this list). -/
def execute_task_on_servers (env : String → RemoteEnv) (task : Task)
    (servers : List String) (bindings : List (String × String)) : List TaskOutcome :=
  servers.map (fun s => execute_on_server (env s) task s bindings)

/-- Behaviour of the single `uptime` health probe on a server
(`check_group_health`, lines 259-266): `none` means `Connection`/`run`
raised (caught by the bare `except: pass`), `some rc` the return code. -/
def probeHealthy (probe : String → Option Int) (s : String) : Bool :=
  probe s == some 0

/-- `check_group_health` (lines 255-272): count servers whose `uptime`
returns 0, then `health_percentage = (healthy_servers / len(servers)) *
100` and `return health_percentage >= 80`.  On an empty group the Python
division raises `ZeroDivisionError`, modelled as the `Except.error`
branch; division is exact `ℚ` arithmetic. -/
def check_group_health (probe : String → Option Int) (servers : List String) :
    Except String Bool :=
  let healthy_servers := (servers.filter (probeHealthy probe)).length
  if servers.length = 0 then
    .error "ZeroDivisionError"
  else
    .ok (decide ((healthy_servers : ℚ) / (servers.length : ℚ) * 100 ≥ 80))

/-- Modelled from the spec (refinement comparison only, not source code):
`HealthAggregator.assess` — `ratio = count(true)/count(all)`, `isHealthy
= (total > 0) AND (ratio ≥ threshold)`, zero targets always unhealthy. -/
structure HealthReport where
  healthyCount : Nat
  totalCount : Nat
  frac : ℚ
  isHealthy : Bool
  deriving DecidableEq, Repr

/-- Modelled from the spec (refinement comparison only, not source code):
the `HealthAggregator.assess(groupName, probeResults, threshold)`
contract of spec §4.4, with the health ratio stored in `frac`. -/
def assess (probeResults : List Bool) (threshold : ℚ) : HealthReport :=
  let total := probeResults.length
  let healthy := (probeResults.filter id).length
  let frac : ℚ := (healthy : ℚ) / (total : ℚ)
  { healthyCount := healthy, totalCount := total, frac := frac,
    isHealthy := decide (0 < total) && decide (frac ≥ threshold) }

/-- `disaster_recovery` (lines 213-253): health-check both groups (any
`ZeroDivisionError` propagates), raise if the backup group is unhealthy,
print a warning (only) if the primary looks healthy, then unconditionally
run `systemctl start`/`enable` for each configured service on the backup
group.  `services` is the backup group's `variables.get('services',
['nginx', 'app'])`.  Returns the Python return value `True` together
with the commands issued to the backup group. -/
def disaster_recovery (probe : String → Option Int)
    (primary_servers backup_servers : List String) (services : List String) :
    Except String (Bool × List String) :=
  match check_group_health probe primary_servers with
  | .error e => .error e
  | .ok _primary_healthy =>
    match check_group_health probe backup_servers with
    | .error e => .error e
    | .ok backup_healthy =>
      if !backup_healthy then
        .error "Backup servers are not healthy - cannot proceed with failover"
      else
        .ok (true, services.flatMap
          (fun s => ["sudo systemctl start " ++ s, "sudo systemctl enable " ++ s]))

/-- The three remote commands `rolling_restart` issues to a server:
`sudo systemctl stop`, `sudo systemctl start`, `systemctl is-active`. -/
inductive Phase
  | stop
  | start
  | health
  deriving DecidableEq, Repr

/-- `range(0, stop, step)` as used at line 170, where `stop =
len(servers)` is a natural number: `ValueError` on step 0; for a positive
step the ascending indices `0, step, ...` below `stop` (their number is
`⌈stop/step⌉`); for a negative step the range counts down from 0 and,
`stop` being ≥ 0, is empty. -/
def python_range_from0 (stop : Nat) (step : Int) : Except String (List Int) :=
  if step = 0 then
    .error "ValueError: range() arg 3 must not be zero"
  else if 0 < step then
    .ok ((List.range (((stop : Int) + step - 1) / step).toNat).map (fun k => (k : Int) * step))
  else
    .ok []

/-- The start phase of one batch (lines 186-192): issue `systemctl start`
to each server in order; on the first nonzero return code stop issuing
and report failure (`return False` in the source). -/
def start_batch (env : Phase → String → Bool) : List String → Bool × List (Phase × String)
  | [] => (true, [])
  | s :: rest =>
    if env .start s then
      let t := start_batch env rest
      (t.1, (Phase.start, s) :: t.2)
    else
      (false, [(Phase.start, s)])

/-- The batch loop of `rolling_restart` (lines 171-211), one entry per
batch slice.  Stops are issued to the whole batch regardless of their
return codes (failures only print a warning); a start failure returns
`False` at once; the health probe is issued to every batch server and
the batch fails if any probe fails; otherwise the remaining batches run.
The second component records every command issued, in order. -/
def run_batches (env : Phase → String → Bool) : List (List String) → Bool × List (Phase × String)
  | [] => (true, [])
  | batch :: rest =>
    let stopT := batch.map (fun s => (Phase.stop, s))
    let st := start_batch env batch
    if st.1 then
      let healthT := batch.map (fun s => (Phase.health, s))
      if batch.all (env .health) then
        let r := run_batches env rest
        (r.1, stopT ++ st.2 ++ healthT ++ r.2)
      else
        (false, stopT ++ st.2 ++ healthT)
    else
      (false, stopT ++ st.2)

/-- `rolling_restart` (lines 158-211): slice the group's server list into
`servers[i:i+batch_size]` for `i in range(0, len(servers), batch_size)`
and run the batch loop.  `env ph s` tells whether the phase-`ph` command
on server `s` returns 0.  Result: the Python return value and the trace
of issued commands, or the exception `range` raises. -/
def rolling_restart (env : Phase → String → Bool) (servers : List String)
    (batch_size : Int) : Except String (Bool × List (Phase × String)) :=
  match python_range_from0 servers.length batch_size with
  | .error e => .error e
  | .ok idxs =>
    .ok (run_batches env (idxs.map (fun i => (servers.drop i.toNat).take batch_size.toNat)))

/-- A batch that `rolling_restart` lets pass: every start command and
every health probe in it returns 0. -/
def batch_passes (env : Phase → String → Bool) (batch : List String) : Prop :=
  (start_batch env batch).1 = true ∧ batch.all (env .health) = true

/-- Turning every probe exception into a nonzero exit (used to state that
`check_group_health` counts a raising probe exactly like a failing one). -/
def exnToFail (probe : String → Option Int) : String → Option Int :=
  fun s =>
    match probe s with
    | none => some 1
    | some rc => some rc

/-! Concrete fixtures for witnesses and counterexamples. -/

/-- A server whose command always runs and exits 0. -/
def envAllOk : RemoteEnv :=
  ⟨none, fun _ => .ok 0 "up" ""⟩

/-- A server on which every `c.run` call raises. -/
def envExn : RemoteEnv :=
  ⟨none, fun _ => .exn "boom"⟩

/-- A task allowing one retry. -/
def taskRetry1 : Task :=
  { name := "t", command := "c", retries := 1 }

/-- A fleet in which `web2` refuses connections and `web1` is fine. -/
def fleetEnv : String → RemoteEnv :=
  fun s => if s == "web2" then ⟨some "unreachable", fun _ => .ok 0 "" ""⟩ else envAllOk

/-- Probe results `[true, true, false, false]` over four hosts. -/
def probeTTFF : String → Option Int :=
  fun s => if s == "h1" || s == "h2" then some 0 else some 1

/-- A probe that raises on `h1` and returns 0 elsewhere. -/
def probeExnH1 : String → Option Int :=
  fun s => if s == "h1" then none else some 0

/-- A probe on which every server responds. -/
def probeAllOk : String → Option Int :=
  fun _ => some 0

/-- A probe failing only on `h5`: four healthy servers out of five. -/
def probe4of5 : String → Option Int :=
  fun s => if s == "h5" then some 1 else some 0

/-- Remote behaviour for the rollout example: every command returns 0
except `systemctl start` on `b`. -/
def envStartFailsB : Phase → String → Bool :=
  fun ph s => !(ph == .start && s == "b")

/-- Rollout remote behaviour where every command returns 0. -/
def rolloutAllOk : Phase → String → Bool :=
  fun _ _ => true

/-! Supporting lemmas. -/

/-- If every attempt runs and exits nonzero, the retry loop returns the
`failed` record built from the last attempt, having consumed every
allowed attempt. -/
theorem runAttempts_allFail (env : RemoteEnv) (server : String) (rc : Nat → Int)
    (out err : Nat → String)
    (henv : ∀ k, env.execAttempt k = .ok (rc k) (out k) (err k))
    (hrc : ∀ k, rc k ≠ 0) :
    ∀ remaining k, runAttempts env server remaining k =
      { server := server, status := .failed, stderr := some (err (k + remaining)),
        returnCode := some (rc (k + remaining)), attempts := some (k + remaining + 1) } := by
  intro remaining
  induction remaining with
  | zero =>
    intro k
    simp [runAttempts, henv k, hrc k]
  | succ r ih =>
    intro k
    have h1 : k + 1 + r = k + (r + 1) := by omega
    simp only [runAttempts, henv k, hrc k, if_neg]
    rw [ih (k + 1), h1]
    simp

/-- If every attempt raises, the retry loop returns the `error` record
built from the last attempt, having consumed every allowed attempt. -/
theorem runAttempts_allExn (env : RemoteEnv) (server : String) (msgs : Nat → String)
    (henv : ∀ k, env.execAttempt k = .exn (msgs k)) :
    ∀ remaining k, runAttempts env server remaining k =
      { server := server, status := .error, error := some (msgs (k + remaining)),
        attempts := some (k + remaining + 1) } := by
  intro remaining
  induction remaining with
  | zero =>
    intro k
    simp [runAttempts, henv k]
  | succ r ih =>
    intro k
    have h1 : k + 1 + r = k + (r + 1) := by omega
    simp only [runAttempts, henv k]
    rw [ih (k + 1), h1]

/-- The retry loop only consults the attempts it actually runs: two
environments agreeing on attempts `k .. k + remaining` give the same
outcome. -/
theorem runAttempts_congr (env env' : RemoteEnv) (server : String) :
    ∀ remaining k, (∀ j, k ≤ j → j ≤ k + remaining → env.execAttempt j = env'.execAttempt j) →
      runAttempts env server remaining k = runAttempts env' server remaining k := by
  intro remaining
  induction remaining with
  | zero =>
    intro k h
    have hk : env.execAttempt k = env'.execAttempt k := h k le_rfl (by omega)
    simp only [runAttempts, hk]
  | succ r ih =>
    intro k h
    have hk : env.execAttempt k = env'.execAttempt k := h k le_rfl (by omega)
    have hrec : runAttempts env server r (k + 1) = runAttempts env' server r (k + 1) :=
      ih (k + 1) (fun j hj1 hj2 => h j (by omega) (by omega))
    simp only [runAttempts, hk]
    cases env'.execAttempt k with
    | ok rc o e =>
      by_cases hrc : rc = 0 <;> simp [hrc, hrec]
    | exn m => exact hrec

/-- The retry loop reports the server it was given. -/
theorem runAttempts_server (env : RemoteEnv) (server : String) :
    ∀ remaining k, (runAttempts env server remaining k).server = server := by
  intro remaining
  induction remaining with
  | zero =>
    intro k
    cases h : env.execAttempt k with
    | ok rc o e =>
      by_cases hrc : rc = 0 <;> simp [runAttempts, h, hrc]
    | exn m => simp [runAttempts, h]
  | succ r ih =>
    intro k
    cases h : env.execAttempt k with
    | ok rc o e =>
      by_cases hrc : rc = 0 <;> simp [runAttempts, h, hrc, ih]
    | exn m => simp [runAttempts, h, ih]

/-- Every outcome carries the server it was produced for. -/
theorem execute_on_server_server (env : RemoteEnv) (task : Task) (server : String)
    (bindings : List (String × String)) :
    (execute_on_server env task server bindings).server = server := by
  cases h : env.connectError <;> simp [execute_on_server, h, runAttempts_server]

/-! Claim theorems. -/

/-- C1: for a task with `maxRetries = r` on a target whose command
executes on every attempt and always exits nonzero, the runner performs
exactly `r + 1` attempts and returns a `failed` outcome carrying the last
attempt's stderr and return code (so `r = 0` means exactly one attempt);
moreover the outcome never depends on what the remote would have done on
attempts beyond index `r`. -/
theorem task_allfail_attempts_and_failed
    (rc : Nat → Int) (out err : Nat → String) (r d : Nat)
    (nm cmd server : String) (bindings : List (String × String))
    (hrc : ∀ k, rc k ≠ 0) :
    execute_on_server ⟨none, fun k => .ok (rc k) (out k) (err k)⟩
        { name := nm, command := cmd, retries := r, delay := d } server bindings =
      { server := server, status := .failed, stderr := some (err r),
        returnCode := some (rc r), attempts := some (r + 1) }
    ∧ ∀ (env env' : RemoteEnv), env.connectError = none → env'.connectError = none →
        (∀ k, k ≤ r → env.execAttempt k = env'.execAttempt k) →
        execute_on_server env { name := nm, command := cmd, retries := r, delay := d }
            server bindings
          = execute_on_server env' { name := nm, command := cmd, retries := r, delay := d }
            server bindings := by
  constructor
  · show runAttempts _ server r 0 = _
    rw [runAttempts_allFail _ server rc out err (fun _ => rfl) hrc r 0]
    simp
  · intro env env' hc hc' hagree
    simp only [execute_on_server, hc, hc']
    exact runAttempts_congr env env' server r 0 (fun j h1 h2 => hagree j (by omega))

/-- C1 witness: with `maxRetries = 0` and a command that always exits 1,
exactly one attempt is made and the outcome is `failed` with that
attempt's output. -/
theorem task_allfail_witness :
    execute_on_server ⟨none, fun _ => .ok 1 "o" "e"⟩
        { name := "t", command := "c", retries := 0, delay := 0 } "srv" []
      = { server := "srv", status := .failed, stderr := some "e",
          returnCode := some 1, attempts := some 1 } :=
  (task_allfail_attempts_and_failed (fun _ => 1) (fun _ => "o") (fun _ => "e") 0 0
    "t" "c" "srv" [] (fun _ => one_ne_zero)).1

/-- C2: a fleet result (the completed outcomes in any completion order)
has exactly one outcome per invited target — its size is the number of
targets and, for each server name, the outcomes naming it are as many as
its occurrences among the targets — and every outcome's status is one of
the four declared statuses; no target's failure removes another target's
outcome. -/
theorem fleet_one_outcome_per_target (env : String → RemoteEnv) (task : Task)
    (servers : List String) (bindings : List (String × String)) (res : List TaskOutcome)
    (hres : res.Perm (execute_task_on_servers env task servers bindings)) :
    res.length = servers.length
    ∧ (∀ s : String, (res.filter (fun o => o.server == s)).length = servers.count s)
    ∧ (∀ o ∈ res, o.status = .success ∨ o.status = .failed ∨ o.status = .error
        ∨ o.status = .connectionError) := by
  refine ⟨?_, ?_, ?_⟩
  · rw [hres.length_eq]
    simp [execute_task_on_servers]
  · intro s
    rw [(hres.filter _).length_eq]
    simp only [execute_task_on_servers, List.filter_map, List.length_map]
    rw [List.filter_congr
      (fun s0 _ => by rw [Function.comp_apply, execute_on_server_server])]
    rw [List.count]
    exact (List.countP_eq_length_filter _ _).symm
  · intro o _
    cases o.status <;> tauto

/-- C2 witness: a two-server fleet where `web2` drops the connection
still yields one outcome per server. -/
theorem fleet_one_outcome_witness :
    (execute_task_on_servers fleetEnv taskRetry1 ["web1", "web2"] []).Perm
        (execute_task_on_servers fleetEnv taskRetry1 ["web1", "web2"] [])
    ∧ ((execute_task_on_servers fleetEnv taskRetry1 ["web1", "web2"] []).length = 2
       ∧ (∀ s : String,
           ((execute_task_on_servers fleetEnv taskRetry1 ["web1", "web2"] []).filter
             (fun o => o.server == s)).length = (["web1", "web2"] : List String).count s)
       ∧ (∀ o ∈ execute_task_on_servers fleetEnv taskRetry1 ["web1", "web2"] [],
           o.status = .success ∨ o.status = .failed ∨ o.status = .error
           ∨ o.status = .connectionError)) :=
  ⟨List.Perm.refl _,
   fleet_one_outcome_per_target fleetEnv taskRetry1 ["web1", "web2"] [] _ (List.Perm.refl _)⟩

/-- C3 counterexample: on a server where the connection succeeds but every
`c.run` call raises (a transport failure of the call itself), a task with
`maxRetries = 1` is retried — two attempts happen — and the outcome
status is `error`, not `connectionError`, refuting "returned immediately
as ConnectionError with no further attempts". -/
theorem exec_exception_retried_counterexample :
    (execute_on_server envExn taskRetry1 "s" []).status ≠ TaskStatus.connectionError
    ∧ (execute_on_server envExn taskRetry1 "s" []).attempts = some 2 := by
  constructor
  · decide
  · decide

/-- C3 as amended: a transport failure while establishing the connection
is returned immediately as `connectionError` (no attempt is recorded,
whatever the retry budget); but a transport failure raised by the
command call itself is retried under the task's retry policy and, once
the `r + 1` attempts are exhausted, reported as the distinct status
`error` carrying the last attempt's message. -/
theorem transport_failure_semantics :
    (∀ (env : RemoteEnv) (task : Task) (server : String)
        (bindings : List (String × String)) (msg : String),
      env.connectError = some msg →
      execute_on_server env task server bindings =
        { server := server, status := .connectionError, error := some msg })
    ∧ ∀ (msgs : Nat → String) (r d : Nat) (nm cmd server : String)
        (bindings : List (String × String)),
      execute_on_server ⟨none, fun k => .exn (msgs k)⟩
          { name := nm, command := cmd, retries := r, delay := d } server bindings =
        { server := server, status := .error, error := some (msgs r),
          attempts := some (r + 1) } := by
  constructor
  · intro env task server bindings msg hmsg
    simp [execute_on_server, hmsg]
  · intro msgs r d nm cmd server bindings
    show runAttempts _ server r 0 = _
    rw [runAttempts_allExn _ server msgs (fun _ => rfl) r 0]
    simp

/-- C3 witness: a concrete connection failure is reported as
`connectionError` at once, and a concrete exec-time failure with
`maxRetries = 2` ends as `error` after three attempts. -/
theorem transport_failure_witness :
    execute_on_server ⟨some "down", fun _ => .ok 0 "" ""⟩
        { name := "t", command := "c", retries := 5, delay := 0 } "srv" []
      = { server := "srv", status := .connectionError, error := some "down" }
    ∧ execute_on_server ⟨none, fun _ => .exn "reset"⟩
        { name := "t", command := "c", retries := 2, delay := 0 } "srv" []
      = { server := "srv", status := .error, error := some "reset",
          attempts := some 3 } :=
  ⟨transport_failure_semantics.1 _ _ "srv" [] "down" rfl,
   transport_failure_semantics.2 (fun _ => "reset") 2 0 "t" "c" "srv" []⟩

/-- C4: on a group with zero targets `check_group_health` divides
`healthy_servers` by `len(servers) = 0`, so whatever the probes would
do it raises `ZeroDivisionError` instead of judging the group unhealthy
— the degenerate case the claim requires is not handled. -/
theorem check_group_health_empty_raises :
    ∀ probe : String → Option Int, check_group_health probe [] = .error "ZeroDivisionError" :=
  fun _ => rfl

/-- C5 counterexample: with probe outcomes `[true, true, false, false]`
the health ratio is `2/4 = 0.5`, which meets the claimed threshold `0.5`
inclusively, yet `check_group_health` judges the group unhealthy — its
comparison is against the hard-coded 80 percent, not against a caller's
threshold. -/
theorem health_threshold_half_counterexample :
    check_group_health probeTTFF ["h1", "h2", "h3", "h4"] = .ok false
    ∧ ((2 : ℚ) / 4 ≥ (1 : ℚ) / 2) := by
  constructor
  · simp [check_group_health, probeHealthy, probeTTFF]
    norm_num
  · norm_num

/-- C5 as amended: for every non-empty group the code computes `ratio =
count(healthy) / count(all)` and judges healthy exactly as the spec's
aggregator would at the one fixed, inclusive threshold `0.8` — the
threshold is not configurable. -/
theorem check_group_health_fixed_threshold (probe : String → Option Int)
    (servers : List String) (hne : servers ≠ []) :
    check_group_health probe servers =
      .ok (assess (servers.map (probeHealthy probe)) (4 / 5)).isHealthy := by
  have hn : servers.length ≠ 0 := by simpa using hne
  simp only [check_group_health, assess, List.length_map, List.filter_map,
    Function.id_comp, if_neg hn]
  refine congrArg Except.ok ?_
  rw [← Bool.decide_and]
  rw [decide_eq_decide]
  have hpos : (0 : ℚ) < (servers.length : ℚ) := by
    have : 0 < servers.length := Nat.pos_of_ne_zero hn
    exact_mod_cast this
  constructor
  · intro h
    refine ⟨Nat.pos_of_ne_zero hn, ?_⟩
    linarith
  · intro h
    linarith [h.2]

/-- C5 witness: five servers of which four respond — the ratio is exactly
`0.8`, the code's judgment matches the spec aggregator at threshold
`0.8`, and the group is healthy (the comparison is inclusive). -/
theorem fixed_threshold_witness :
    ((["h1", "h2", "h3", "h4", "h5"] : List String) ≠ [])
    ∧ check_group_health probe4of5 ["h1", "h2", "h3", "h4", "h5"] =
        .ok (assess (["h1", "h2", "h3", "h4", "h5"].map (probeHealthy probe4of5)) (4 / 5)).isHealthy
    ∧ check_group_health probe4of5 ["h1", "h2", "h3", "h4", "h5"] = .ok true := by
  refine ⟨by simp, check_group_health_fixed_threshold probe4of5 _ (by simp), ?_⟩
  simp [check_group_health, probeHealthy, probe4of5]
  norm_num

/-- C6: with both the primary and the backup group fully healthy,
`disaster_recovery` does not stop for confirmation — it only prints a
warning and unconditionally starts and enables every configured service
on the backup group, returning success.  (Its own comment says a real
system would require manual confirmation here.) -/
theorem disaster_recovery_healthy_primary_activates :
    check_group_health probeAllOk ["p1"] = .ok true
    ∧ check_group_health probeAllOk ["b1"] = .ok true
    ∧ disaster_recovery probeAllOk ["p1"] ["b1"] ["nginx", "app"] =
        .ok (true, ["sudo systemctl start nginx", "sudo systemctl enable nginx",
                    "sudo systemctl start app", "sudo systemctl enable app"]) := by
  refine ⟨?_, ?_, ?_⟩ <;>
  · simp [disaster_recovery, check_group_health, probeHealthy, probeAllOk]
    norm_num

/-- Every command the start phase issues goes to a server of that
batch. -/
theorem start_batch_trace (env : Phase → String → Bool) :
    ∀ batch : List String, ∀ pr ∈ (start_batch env batch).2, pr.2 ∈ batch := by
  intro batch
  induction batch with
  | nil => simp [start_batch]
  | cons s rest ih =>
    intro pr hpr
    by_cases h : env .start s
    · simp only [start_batch, h, if_pos, List.mem_cons] at hpr
      rcases hpr with h1 | h2
      · simp [h1]
      · exact List.mem_cons_of_mem _ (ih pr h2)
    · simp [start_batch, h] at hpr
      simp [hpr]

/-- The start phase consults only the start commands: environments with
the same start behaviour run it identically. -/
theorem start_batch_congr (env env' : Phase → String → Bool)
    (hstart : env Phase.start = env' Phase.start) :
    ∀ batch : List String, start_batch env batch = start_batch env' batch := by
  intro batch
  induction batch with
  | nil => rfl
  | cons s rest ih =>
    simp only [start_batch, hstart, ih]

/-- C7: (i) if every batch before `b` passes its start and health phases
and some start command in `b` fails, the whole rollout over
`bs ++ b :: rest` returns `False` and every command it ever issued —
stop, start or health — went to a server of `bs` or of `b`, never to a
later batch; (ii) the outcome and trace of the batch loop never depend
on the stop commands' return codes: a failed stop never by itself
aborts. -/
theorem rollout_start_failure_aborts :
    (∀ (env : Phase → String → Bool) (bs : List (List String)) (b : List String)
        (rest : List (List String)),
      (∀ c ∈ bs, batch_passes env c) → (start_batch env b).1 = false →
      (run_batches env (bs ++ b :: rest)).1 = false
      ∧ ∀ pr ∈ (run_batches env (bs ++ b :: rest)).2, pr.2 ∈ bs.flatten ∨ pr.2 ∈ b)
    ∧ ∀ (env env' : Phase → String → Bool) (batches : List (List String)),
      env Phase.start = env' Phase.start → env Phase.health = env' Phase.health →
      run_batches env batches = run_batches env' batches := by
  constructor
  · intro env bs b rest hpass hfail
    induction bs with
    | nil =>
      simp only [List.nil_append, run_batches, hfail, Bool.false_eq_true, if_neg]
      refine ⟨rfl, ?_⟩
      intro pr hpr
      rcases List.mem_append.mp hpr with h1 | h2
      · rcases List.mem_map.mp h1 with ⟨s, hs, rfl⟩
        exact Or.inr hs
      · exact Or.inr (start_batch_trace env b pr h2)
    | cons c bs' ih =>
      have hc := hpass c (List.mem_cons_self c bs')
      have hrest : ∀ x ∈ bs', batch_passes env x :=
        fun x hx => hpass x (List.mem_cons_of_mem _ hx)
      have ih' := ih hrest
      simp only [List.cons_append, run_batches, hc.1, hc.2, if_pos]
      refine ⟨ih'.1, ?_⟩
      intro pr hpr
      have hup : ∀ y : String, y ∈ c ∨ y ∈ bs'.flatten → y ∈ (c :: bs').flatten := by
        intro y hy
        rcases hy with h | h
        · exact List.mem_flatten.mpr ⟨c, List.mem_cons_self c bs', h⟩
        · rcases List.mem_flatten.mp h with ⟨l, hl, hyl⟩
          exact List.mem_flatten.mpr ⟨l, List.mem_cons_of_mem _ hl, hyl⟩
      rcases List.mem_append.mp hpr with hfront | hr
      · rcases List.mem_append.mp hfront with hfront2 | hhealth
        · rcases List.mem_append.mp hfront2 with hstop | hstart
          · rcases List.mem_map.mp hstop with ⟨s, hs, rfl⟩
            exact Or.inl (hup _ (Or.inl hs))
          · exact Or.inl (hup _ (Or.inl (start_batch_trace env c pr hstart)))
        · rcases List.mem_map.mp hhealth with ⟨s, hs, rfl⟩
          exact Or.inl (hup _ (Or.inl hs))
      · rcases ih'.2 pr hr with h1 | h2
        · exact Or.inl (hup _ (Or.inr h1))
        · exact Or.inr h2
  · intro env env' batches hstart hhealth
    induction batches with
    | nil => rfl
    | cons c rest ih =>
      simp only [run_batches, start_batch_congr env env' hstart c, hhealth, ih]

/-- C7 witness: with batches `[[a, b], [c, d]]` and `start` failing on
`b`, the rollout returns `False` and no command at all is issued to `c`
or `d`. -/
theorem rollout_abort_witness :
    (start_batch envStartFailsB ["a", "b"]).1 = false
    ∧ ((run_batches envStartFailsB ([] ++ ["a", "b"] :: [["c", "d"]])).1 = false
       ∧ ∀ pr ∈ (run_batches envStartFailsB ([] ++ ["a", "b"] :: [["c", "d"]])).2,
           pr.2 ∈ ([] : List (List String)).flatten ∨ pr.2 ∈ ["a", "b"]) :=
  ⟨by decide,
   rollout_start_failure_aborts.1 envStartFailsB [] ["a", "b"] [["c", "d"]]
     (by simp) (by decide)⟩

/-- C8 counterexample: a malformed batch size of `-1` does not fail fast
with any configuration error — `rolling_restart` silently succeeds with
an empty batch list, issuing no command. -/
theorem negative_batch_size_no_error :
    rolling_restart rolloutAllOk ["a", "b"] (-1) = .ok (true, []) := rfl

/-- C8 as amended: a batch size ≤ 0 does mean no command is ever issued
to any target, but there is no fail-fast configuration check: batch size
0 raises a `ValueError` out of `range`, while a negative batch size
yields an empty batch list and the rollout reports success; a threshold
parameter does not exist, so no threshold validation happens either. -/
theorem nonpositive_batch_size_behaviour (env : Phase → String → Bool)
    (servers : List String) (bsz : Int) (hbsz : bsz ≤ 0) :
    rolling_restart env servers bsz =
      if bsz = 0 then .error "ValueError: range() arg 3 must not be zero"
      else .ok (true, []) := by
  by_cases h0 : bsz = 0
  · simp [rolling_restart, python_range_from0, h0]
  · have hneg : ¬(0 < bsz) := by omega
    simp [rolling_restart, python_range_from0, h0, hneg, run_batches]

/-- C8 witness: the amended behaviour at batch size `-1`. -/
theorem nonpositive_batch_size_witness :
    ((-1 : Int) ≤ 0)
    ∧ rolling_restart rolloutAllOk ["a", "b"] (-1) =
        (if (-1 : Int) = 0 then .error "ValueError: range() arg 3 must not be zero"
         else .ok (true, [])) :=
  ⟨by norm_num, nonpositive_batch_size_behaviour rolloutAllOk ["a", "b"] (-1) (by norm_num)⟩

/-- C9: substitution is sequential, one binding at a time — an empty
binding list returns the command unchanged, each binding rewrites the
result of the previous ones, and hence a substituted value containing a
later binding's token is rewritten again (here `{a}` becomes `{b}` and
then `X`, where simultaneous substitution would leave `{b}`). -/
theorem substitution_sequential :
    (∀ command : String, substitute_variables command [] = command)
    ∧ (∀ (command : String) (kv : String × String) (rest : List (String × String)),
        substitute_variables command (kv :: rest) =
          substitute_variables (pyReplace command ("\x7b" ++ kv.1 ++ "\x7d") kv.2) rest)
    ∧ substitute_variables "\x7ba\x7d" [("a", "\x7bb\x7d"), ("b", "X")] = "X" := by
  refine ⟨fun _ => rfl, fun _ _ _ => rfl, by decide⟩

/-- C10: on a non-empty group the health check always returns a boolean
(probe exceptions are absorbed, never propagated), and a probe that
raises is counted exactly like one whose command fails — replacing every
exception by a nonzero exit leaves the judgment unchanged. -/
theorem health_check_total_probe_exn (probe : String → Option Int)
    (servers : List String) (hne : servers ≠ []) :
    (∃ b : Bool, check_group_health probe servers = .ok b)
    ∧ check_group_health probe servers = check_group_health (exnToFail probe) servers := by
  have hn : servers.length ≠ 0 := by simpa using hne
  constructor
  · have hok : check_group_health probe servers =
        .ok (decide (((servers.filter (probeHealthy probe)).length : ℚ)
          / (servers.length : ℚ) * 100 ≥ 80)) := by
      simp only [check_group_health]
      rw [if_neg hn]
    exact ⟨_, hok⟩
  · have hfilter : servers.filter (probeHealthy probe)
        = servers.filter (probeHealthy (exnToFail probe)) := by
      apply List.filter_congr
      intro s _
      unfold probeHealthy exnToFail
      cases probe s with
      | none => simp
      | some rcv => simp
    simp [check_group_health, hfilter]

/-- C10 witness: a two-server group where probing `h1` raises still gets
a boolean judgment, equal to the one where `h1` merely fails. -/
theorem health_total_witness :
    ((["h1", "h2"] : List String) ≠ [])
    ∧ ((∃ b : Bool, check_group_health probeExnH1 ["h1", "h2"] = .ok b)
       ∧ check_group_health probeExnH1 ["h1", "h2"] =
           check_group_health (exnToFail probeExnH1) ["h1", "h2"]) :=
  ⟨by simp, health_check_total_probe_exn probeExnH1 ["h1", "h2"] (by simp)⟩

end Orch
